import Mathlib

/-!
Shallow embedding of the authentication and session-lifecycle core of the
Ocean blog platform backend: the user model and its instance methods
(`backend/models/User.js`), the auth routes (`backend/routes/auth.js`)
and the bearer-token middleware (`backend/middleware/auth.js`).

Times are in milliseconds (`Date.now()` values) as natural numbers.
JSON web tokens are modelled as an inductive type: a signed token carries
its payload, signing secret and expiry instant; anything else is malformed.
bcrypt is modelled ideally: a hash remembers the plaintext it was derived
from and `compare` succeeds exactly on that plaintext.
-/

namespace OceanAuth

/-- Purpose discriminator carried in the `type` field of a JWT payload. -/
inductive TokenType
  | emailVerification
  | passwordReset
  deriving DecidableEq, Repr

/-- Decoded JWT payload. Access tokens carry id/email/role, refresh tokens
only id, purpose tokens id plus a `type` discriminator. -/
structure JwtPayload where
  id : Nat
  email : Option String := none
  role : Option String := none
  tokType : Option TokenType := none
  deriving DecidableEq, Repr

/-- A JSON web token: either properly signed (payload, secret, expiry
instant in ms) or malformed. -/
inductive Jwt
  | signed (payload : JwtPayload) (secret : String) (exp : Nat)
  | malformed (s : String)
  deriving DecidableEq, Repr

/-- Errors raised by `jwt.verify`: bad signature / malformed
(JsonWebTokenError) or past expiry (TokenExpiredError). -/
inductive JwtError
  | invalid
  | expired
  deriving DecidableEq, Repr

/-- Model of `jwt.verify(token, secret)` at time `now`. -/
def jwtVerify (tok : Jwt) (secret : String) (now : Nat) :
    Except JwtError JwtPayload :=
  match tok with
  | .malformed _ => .error .invalid
  | .signed p s e =>
      if s ≠ secret then .error .invalid
      else if e ≤ now then .error .expired
      else .ok p

/-- Whether a `jwt.verify` call succeeded. -/
def jwtOk (r : Except JwtError JwtPayload) : Bool :=
  match r with
  | .ok _ => true
  | .error _ => false

/-- Idealized bcrypt hash: records the cost and the plaintext it hashes. -/
structure BcryptHash where
  rounds : Nat
  plain : String
  deriving DecidableEq, Repr

/-- Model of `bcrypt.compare(candidate, hash)`: succeeds exactly when the
candidate equals the hashed plaintext. -/
def bcryptCompare (candidate : String) (h : BcryptHash) : Bool :=
  candidate == h.plain

/-- One stored refresh-token record (`refreshTokens` array element). -/
structure RefreshTokenRecord where
  token : Jwt
  createdAt : Nat
  deriving DecidableEq, Repr

/-- Persisted user record (the fields the auth core reads or writes). -/
structure User where
  id : Nat
  name : String
  email : String
  password : BcryptHash
  role : String := "user"
  isActive : Bool := true
  isEmailVerified : Bool := false
  emailVerificationToken : Option Jwt := none
  passwordResetToken : Option Jwt := none
  passwordResetExpires : Option Nat := none
  loginAttempts : Nat := 0
  lockUntil : Option Nat := none
  lastLogin : Option Nat := none
  refreshTokens : List RefreshTokenRecord := []
  deriving DecidableEq, Repr

/-- Process configuration: the two signing secrets and the bcrypt cost. -/
structure Config where
  jwtSecret : String
  jwtRefreshSecret : String
  bcryptRounds : Nat := 12
  deriving DecidableEq, Repr

/-- JWT_EXPIRE default: 7 days in ms. -/
def jwtExpireMs : Nat := 7 * 24 * 60 * 60 * 1000

/-- JWT_REFRESH_EXPIRE default: 30 days in ms. -/
def refreshExpireMs : Nat := 30 * 24 * 60 * 60 * 1000

/-- Lockout duration: 2 hours in ms. -/
def lockTimeMs : Nat := 2 * 60 * 60 * 1000

/-- Maximum failed attempts before lockout. -/
def maxAttempts : Nat := 5

/-- Password-reset token TTL: 1 hour in ms. -/
def resetTtlMs : Nat := 60 * 60 * 1000

/-- Email-verification token TTL: 24 hours in ms. -/
def verifyTtlMs : Nat := 24 * 60 * 60 * 1000

/-- Virtual `isLocked`: lockUntil is set and strictly in the future. -/
def User.isLocked (u : User) (now : Nat) : Bool :=
  match u.lockUntil with
  | some t => decide (now < t)
  | none => false

/-- Instance method `comparePassword`. -/
def User.comparePassword (u : User) (candidate : String) : Bool :=
  bcryptCompare candidate u.password

/-- Instance method `generateAuthToken`: access token signed with
JWT_SECRET, 7-day expiry, payload id/email/role. -/
def User.generateAuthToken (u : User) (cfg : Config) (now : Nat) : Jwt :=
  .signed { id := u.id, email := some u.email, role := some u.role }
    cfg.jwtSecret (now + jwtExpireMs)

/-- Instance method `generateRefreshToken`: signs a refresh token with the
distinct refresh secret, appends it to `refreshTokens`, and keeps only the
last 5 records (`slice(-5)`). Returns the token and the updated user. -/
def User.generateRefreshToken (u : User) (cfg : Config) (now : Nat) :
    Jwt × User :=
  let token : Jwt := .signed { id := u.id } cfg.jwtRefreshSecret
    (now + refreshExpireMs)
  let rts := u.refreshTokens ++ [⟨token, now⟩]
  let rts := if rts.length > 5 then rts.drop (rts.length - 5) else rts
  (token, { u with refreshTokens := rts })

/-- Instance method `removeRefreshToken`: filters out records holding the
given token value. -/
def User.removeRefreshToken (u : User) (tok : Jwt) : User :=
  { u with refreshTokens := u.refreshTokens.filter (fun r => r.token ≠ tok) }

/-- Instance method `generateEmailVerificationToken`: purpose token of type
`email_verification`, signed with JWT_SECRET, 24h TTL, stored on the user. -/
def User.generateEmailVerificationToken (u : User) (cfg : Config)
    (now : Nat) : Jwt × User :=
  let token : Jwt := .signed
    { id := u.id, tokType := some .emailVerification }
    cfg.jwtSecret (now + verifyTtlMs)
  (token, { u with emailVerificationToken := some token })

/-- Instance method `generatePasswordResetToken`: purpose token of type
`password_reset`, signed with JWT_SECRET, 1h TTL, stored on the user along
with its own expiry timestamp. -/
def User.generatePasswordResetToken (u : User) (cfg : Config)
    (now : Nat) : Jwt × User :=
  let token : Jwt := .signed
    { id := u.id, tokType := some .passwordReset }
    cfg.jwtSecret (now + resetTtlMs)
  (token, { u with passwordResetToken := some token,
                   passwordResetExpires := some (now + resetTtlMs) })

/-- Instance method `incLoginAttempts`: if a previous lock has expired,
restart the counter at 1 and clear the lock; otherwise increment the
counter and, when it reaches the maximum on an unlocked account, set
`lockUntil` two hours from now. -/
def User.incLoginAttempts (u : User) (now : Nat) : User :=
  if (match u.lockUntil with
      | some t => decide (t < now)
      | none => false) then
    { u with loginAttempts := 1, lockUntil := none }
  else if decide (u.loginAttempts + 1 ≥ maxAttempts) && !(u.isLocked now) then
    { u with loginAttempts := u.loginAttempts + 1,
             lockUntil := some (now + lockTimeMs) }
  else
    { u with loginAttempts := u.loginAttempts + 1 }

/-- Instance method `cleanupRefreshTokens`: keep only the stored records
whose token still verifies against the refresh secret. -/
def User.cleanupRefreshTokens (u : User) (cfg : Config) (now : Nat) : User :=
  { u with refreshTokens := (u.refreshTokens.filter
      (fun r => jwtOk (jwtVerify r.token cfg.jwtRefreshSecret now))) }

/-- The persisted collection of users. -/
def DB := List User

/-- Model of `User.findOne({ email })`. -/
def dbFindByEmail (db : List User) (email : String) : Option User :=
  db.find? (fun u => u.email == email)

/-- Model of `User.findById(id)`. -/
def dbFindById (db : List User) (id : Nat) : Option User :=
  db.find? (fun u => u.id == id)

/-- Model of saving an updated user document: replaces the record with the
same id. -/
def updateUser (db : List User) (u : User) : List User :=
  db.map (fun v => if v.id == u.id then u else v)

/-- An HTTP error response: status code and the `message` field of the
JSON body. -/
structure HttpResponse where
  status : Nat
  message : String
  deriving DecidableEq, Repr

/-- Outcome of `POST /login`. -/
inductive LoginResult
  | failure (resp : HttpResponse)
  | success (token refreshToken : Jwt)
  deriving DecidableEq, Repr

/-- Handler for `POST /login`: lookup by email, locked check, active
check, password check (incrementing the attempt counter on mismatch),
then clear lockout counters, stamp `lastLogin` and issue a token pair. -/
def login (db : List User) (email password : String) (cfg : Config)
    (now : Nat) : LoginResult × List User :=
  match dbFindByEmail db email with
  | none => (.failure ⟨401, "Invalid email or password"⟩, db)
  | some u =>
    if u.isLocked now then
      (.failure ⟨423,
        "Account temporarily locked due to too many failed login attempts"⟩,
       db)
    else if !u.isActive then
      (.failure ⟨401, "Account is deactivated"⟩, db)
    else if !(u.comparePassword password) then
      (.failure ⟨401, "Invalid email or password"⟩,
       updateUser db (u.incLoginAttempts now))
    else
      let u1 := if u.loginAttempts > 0 then
          { u with loginAttempts := 0, lockUntil := none }
        else u
      let u2 := { u1 with lastLogin := some now }
      let authToken := u2.generateAuthToken cfg now
      let (refreshToken, u3) := u2.generateRefreshToken cfg now
      (.success authToken refreshToken, updateUser db u3)

/-- Outcome of `POST /register`. -/
inductive RegisterResult
  | failure (resp : HttpResponse)
  | success (userId : Nat) (token refreshToken : Jwt)
  deriving DecidableEq, Repr

/-- Handler for `POST /register`: duplicate-email check, create the user
with the bcrypt-hashed password (pre-save hook), issue and store a token
pair. `newId` is the id the store assigns to the new document. -/
def register (db : List User) (name email password : String)
    (cfg : Config) (now : Nat) (newId : Nat) :
    RegisterResult × List User :=
  match dbFindByEmail db email with
  | some _ =>
      (.failure ⟨400, "User with this email already exists"⟩, db)
  | none =>
      let u : User := { id := newId, name := name, email := email,
                        password := ⟨cfg.bcryptRounds, password⟩,
                        lastLogin := some now }
      let authToken := u.generateAuthToken cfg now
      let (refreshToken, u1) := u.generateRefreshToken cfg now
      (.success newId authToken refreshToken, db ++ [u1])

/-- Outcome of `POST /refresh`. -/
inductive RefreshResult
  | failure (resp : HttpResponse)
  | success (token refreshToken : Jwt)
  deriving DecidableEq, Repr

/-- Whether a refresh outcome is a failure carrying HTTP status 401. -/
def isRefresh401 (r : RefreshResult) : Bool :=
  match r with
  | .failure resp => resp.status == 401
  | .success _ _ => false

/-- Whether a refresh outcome is a success. -/
def RefreshResult.isSuccess (r : RefreshResult) : Bool :=
  match r with
  | .failure _ => false
  | .success _ _ => true

/-- Handler for `POST /refresh`: verify the presented token against the
refresh secret, load the owning user, require it active and the token
present in its stored list, then prune expired stored tokens and issue
and store a fresh pair. -/
def refresh (db : List User) (tok : Option Jwt) (cfg : Config)
    (now : Nat) : RefreshResult × List User :=
  match tok with
  | none => (.failure ⟨401, "Refresh token is required"⟩, db)
  | some t =>
    match jwtVerify t cfg.jwtRefreshSecret now with
    | .error _ =>
        (.failure ⟨401, "Invalid or expired refresh token"⟩, db)
    | .ok decoded =>
      match dbFindById db decoded.id with
      | none => (.failure ⟨401, "User not found"⟩, db)
      | some u =>
        if !u.isActive then
          (.failure ⟨401, "Account is deactivated"⟩, db)
        else if !(u.refreshTokens.any (fun r => r.token == t)) then
          (.failure ⟨401, "Invalid refresh token"⟩, db)
        else
          let u1 := u.cleanupRefreshTokens cfg now
          let newAuthToken := u1.generateAuthToken cfg now
          let (newRefreshToken, u2) := u1.generateRefreshToken cfg now
          (.success newAuthToken newRefreshToken, updateUser db u2)

/-- Handler for `POST /verify-email`: requires the token, verifies it
against JWT_SECRET, requires `type` to be `email_verification`, loads the
user, rejects an already verified account, and otherwise marks the email
verified and clears the stored verification token. -/
def verifyEmail (db : List User) (tok : Option Jwt) (cfg : Config)
    (now : Nat) : HttpResponse × List User :=
  match tok with
  | none => (⟨400, "Verification token is required"⟩, db)
  | some t =>
    match jwtVerify t cfg.jwtSecret now with
    | .error .expired => (⟨400, "Verification token has expired"⟩, db)
    | .error .invalid => (⟨400, "Invalid verification token"⟩, db)
    | .ok decoded =>
      if decoded.tokType ≠ some .emailVerification then
        (⟨400, "Invalid verification token"⟩, db)
      else
        match dbFindById db decoded.id with
        | none => (⟨404, "User not found"⟩, db)
        | some u =>
          if u.isEmailVerified then
            (⟨400, "Email is already verified"⟩, db)
          else
            (⟨200, "Email verified successfully"⟩,
             updateUser db { u with isEmailVerified := true,
                                    emailVerificationToken := none })

/-- Handler for `POST /forgot-password`: on an unknown email answer 200
with a non-committal message; otherwise store a fresh reset token and
dispatch the reset email (`emailOk` says whether dispatch succeeds) —
on dispatch failure clear the stored token and answer 500. -/
def forgotPassword (db : List User) (email : String) (emailOk : Bool)
    (cfg : Config) (now : Nat) : HttpResponse × List User :=
  match dbFindByEmail db email with
  | none =>
      (⟨200,
        "If a user with that email exists, we have sent a password reset link"⟩,
       db)
  | some u =>
      let (_, u1) := u.generatePasswordResetToken cfg now
      if emailOk then
        (⟨200, "Password reset email sent successfully"⟩, updateUser db u1)
      else
        let u2 := { u1 with passwordResetToken := none,
                            passwordResetExpires := none }
        (⟨500, "Could not send password reset email"⟩, updateUser db u2)

/-- View of a user document loaded by a plain `findById`, as the
reset-password route does: the schema marks `passwordResetToken` and
`passwordResetExpires` as `select: false`, so the loaded document carries
neither field. (`password` and `emailVerificationToken` are also
`select: false`; they are not stripped here because the record type
requires a password and because no handler that loads a user without an
explicit `.select` ever reads either of them.) -/
def User.defaultSelect (u : User) : User :=
  { u with passwordResetToken := none, passwordResetExpires := none }

/-- Handler for `POST /reset-password`: verify the token against
JWT_SECRET, require `type` to be `password_reset`, then load the user
with a plain `findById` — which, the reset fields being `select: false`,
yields a document without `passwordResetToken` or
`passwordResetExpires` — and compare the submitted token with the stored
one on that loaded document. The loaded field is always absent, so the
comparison always fails with 400; the success code below it (re-hash the
password, clear the reset fields, clear the refresh-token list) is
unreachable. -/
def resetPassword (db : List User) (tok : Jwt) (newPassword : String)
    (cfg : Config) (now : Nat) : HttpResponse × List User :=
  match jwtVerify tok cfg.jwtSecret now with
  | .error _ => (⟨400, "Invalid or expired reset token"⟩, db)
  | .ok decoded =>
    if decoded.tokType ≠ some .passwordReset then
      (⟨400, "Invalid reset token"⟩, db)
    else
      match dbFindById db decoded.id with
      | none => (⟨404, "User not found"⟩, db)
      | some udoc =>
        let u := udoc.defaultSelect
        if u.passwordResetToken ≠ some tok then
          (⟨400, "Invalid or expired reset token"⟩, db)
        else if (match u.passwordResetExpires with
                 | some e => decide (e < now)
                 | none => false) then
          (⟨400, "Reset token has expired"⟩, db)
        else
          (⟨200, "Password reset successfully"⟩,
           updateUser db { udoc with
             password := ⟨cfg.bcryptRounds, newPassword⟩,
             passwordResetToken := none,
             passwordResetExpires := none,
             refreshTokens := [] })

/-- Outcome of the `authenticate` middleware. -/
inductive AuthResult
  | failure (message : String) (status : Nat)
  | success (userId : Nat)
  deriving DecidableEq, Repr

/-- The `authenticate` middleware: verify the extracted bearer token
against JWT_SECRET, load the user by the decoded id, and require it to
exist and be active. `tok` is the token extracted from the Authorization
header (`none` when absent). -/
def authenticate (db : List User) (tok : Option Jwt) (cfg : Config)
    (now : Nat) : AuthResult :=
  match tok with
  | none => .failure "Access token is required" 401
  | some t =>
    match jwtVerify t cfg.jwtSecret now with
    | .error .invalid => .failure "Invalid token" 401
    | .error .expired => .failure "Token expired" 401
    | .ok decoded =>
      match dbFindById db decoded.id with
      | none => .failure "User no longer exists" 401
      | some u =>
        if !u.isActive then .failure "Account is deactivated" 401
        else .success u.id

/-- Invariant: every user in the store keeps at most 5 refresh tokens. -/
def dbCapB (db : List User) : Bool :=
  db.all (fun u => u.refreshTokens.length ≤ 5)

/-- Transcription of the spec condition list for a RefreshToken failure:
the signature/expiry check fails, the owning user no longer exists, the
user is deactivated, or the token is absent from the stored list. Stated
from the spec wording, to be compared with the behaviour of `refresh`. -/
def specRefreshRejects (db : List User) (t : Jwt) (cfg : Config)
    (now : Nat) : Bool :=
  match jwtVerify t cfg.jwtRefreshSecret now with
  | .error _ => true
  | .ok decoded =>
    match dbFindById db decoded.id with
    | none => true
    | some u =>
        !u.isActive || !(u.refreshTokens.any (fun r => r.token == t))

/-! ### Concrete fixtures used by witnesses and counterexamples -/

/-- A concrete configuration with distinct access and refresh secrets. -/
def exCfg : Config :=
  { jwtSecret := "access-secret", jwtRefreshSecret := "refresh-secret" }

/-- A concrete active user. -/
def alice : User :=
  { id := 1, name := "Alice", email := "alice@example.com",
    password := ⟨12, "Password1!"⟩ }

/-- A password-reset purpose token for `alice`, unexpired at time 1000. -/
def aliceResetTok : Jwt :=
  .signed { id := 1, tokType := some .passwordReset } "access-secret" 5000

/-- An email-verification purpose token for `alice`, unexpired at 1000. -/
def aliceVerifyTok : Jwt :=
  .signed { id := 1, tokType := some .emailVerification } "access-secret"
    5000

/-- A family of distinct refresh tokens for user id 2, all unexpired at
time 1000. -/
def rtok (i : Nat) : Jwt :=
  .signed { id := 2 } "refresh-secret" (900000 + i)

/-- A concrete user whose stored refresh-token list is full (5 live
tokens, `rtok 1` the oldest). -/
def bob : User :=
  { id := 2, name := "Bob", email := "bob@example.com",
    password := ⟨12, "Password2!"⟩,
    refreshTokens := [⟨rtok 1, 1⟩, ⟨rtok 2, 2⟩, ⟨rtok 3, 3⟩,
                      ⟨rtok 4, 4⟩, ⟨rtok 5, 5⟩] }

/-- A stored password-reset token for user id 3, unexpired at 1000. -/
def carolResetTok : Jwt :=
  .signed { id := 3, tokType := some .passwordReset } "access-secret" 4000

/-- A live refresh token for user id 3. -/
def carolRefreshTok : Jwt :=
  .signed { id := 3 } "refresh-secret" 999999

/-- A concrete user mid password-reset, holding one live session. -/
def carol : User :=
  { id := 3, name := "Carol", email := "carol@example.com",
    password := ⟨12, "Password3!"⟩,
    passwordResetToken := some carolResetTok,
    passwordResetExpires := some 4000,
    refreshTokens := [⟨carolRefreshTok, 10⟩] }

/-- A concrete user with 4 failed attempts recorded and no lock. -/
def dave : User :=
  { id := 4, name := "Dave", email := "dave@example.com",
    password := ⟨12, "Password4!"⟩, loginAttempts := 4 }

/-- A concrete user whose lock expired at time 500. -/
def erin : User :=
  { id := 5, name := "Erin", email := "erin@example.com",
    password := ⟨12, "Password5!"⟩, loginAttempts := 5,
    lockUntil := some 500 }

/-- A concrete user locked until time 9000. -/
def frank : User :=
  { id := 6, name := "Frank", email := "frank@example.com",
    password := ⟨12, "Password6!"⟩, loginAttempts := 5,
    lockUntil := some 9000 }

/-! ### Helper lemmas about the store -/

lemma find?_some_id {db : List User} {i : Nat} {u : User}
    (h : dbFindById db i = some u) : u.id = i := by
  have := List.find?_some h
  simpa using this

lemma mem_of_dbFindById {db : List User} {i : Nat} {u : User}
    (h : dbFindById db i = some u) : u ∈ db :=
  List.mem_of_find?_eq_some h

lemma mem_of_dbFindByEmail {db : List User} {e : String} {u : User}
    (h : dbFindByEmail db e = some u) : u ∈ db :=
  List.mem_of_find?_eq_some h

lemma dbFindById_updateUser (v : User) :
    ∀ (db : List User) {i : Nat} {u : User},
      dbFindById db i = some u → v.id = u.id →
      dbFindById (updateUser db v) i = some v := by
  intro db
  induction db with
  | nil => intro i u h _hid; simp [dbFindById] at h
  | cons a l ih =>
    intro i u h hid
    have hu : u.id = i := find?_some_id h
    unfold dbFindById at h
    unfold dbFindById updateUser
    rw [List.map_cons]
    by_cases ha : a.id = i
    · have hpos : ((fun w : User => w.id == i) a) = true := by simpa using ha
      rw [@List.find?_cons_of_pos User (fun w : User => w.id == i) a l hpos]
        at h
      have hau : a = u := Option.some_inj.1 h
      have hcond : (a.id == v.id) = true := by
        subst hau; simp [hid.symm]
      rw [if_pos hcond]
      have hposv : ((fun w : User => w.id == i) v) = true := by
        simp [hid, hu]
      rw [@List.find?_cons_of_pos User (fun w : User => w.id == i) v _ hposv]
    · have hneg : ¬ (((fun w : User => w.id == i) a) = true) := by
        simpa using ha
      rw [@List.find?_cons_of_neg User (fun w : User => w.id == i) a l hneg]
        at h
      have hcond : ¬ ((a.id == v.id) = true) := by
        simp only [beq_iff_eq]
        rw [hid, hu]
        exact ha
      rw [if_neg hcond]
      rw [@List.find?_cons_of_neg User (fun w : User => w.id == i) a _ hneg]
      have := ih h hid
      unfold dbFindById updateUser at this
      exact this

lemma dbCapB_updateUser {db : List User} {v : User}
    (h : dbCapB db = true) (hv : v.refreshTokens.length ≤ 5) :
    dbCapB (updateUser db v) = true := by
  simp only [dbCapB, updateUser, List.all_eq_true] at *
  intro x hx
  rcases List.mem_map.1 hx with ⟨y, hy, rfl⟩
  by_cases hc : (y.id == v.id) = true
  · simpa [hc] using hv
  · simpa [hc] using h y hy

/-! ### Branch lemmas for the login handler -/

lemma login_no_user {db : List User} {email pw : String} {cfg : Config}
    {now : Nat} (h : dbFindByEmail db email = none) :
    login db email pw cfg now =
      (.failure ⟨401, "Invalid email or password"⟩, db) := by
  simp [login, h]

lemma login_locked {db : List User} {email pw : String} {cfg : Config}
    {now : Nat} {u : User} (h : dbFindByEmail db email = some u)
    (hl : u.isLocked now = true) :
    login db email pw cfg now =
      (.failure ⟨423,
        "Account temporarily locked due to too many failed login attempts"⟩,
       db) := by
  simp [login, h, hl]

lemma login_inactive {db : List User} {email pw : String} {cfg : Config}
    {now : Nat} {u : User} (h : dbFindByEmail db email = some u)
    (hl : u.isLocked now = false) (ha : u.isActive = false) :
    login db email pw cfg now =
      (.failure ⟨401, "Account is deactivated"⟩, db) := by
  simp [login, h, hl, ha]

lemma login_wrong_password {db : List User} {email pw : String}
    {cfg : Config} {now : Nat} {u : User}
    (h : dbFindByEmail db email = some u) (hl : u.isLocked now = false)
    (ha : u.isActive = true) (hp : u.comparePassword pw = false) :
    login db email pw cfg now =
      (.failure ⟨401, "Invalid email or password"⟩,
       updateUser db (u.incLoginAttempts now)) := by
  simp [login, h, hl, ha, hp]

lemma login_success {db : List User} {email pw : String} {cfg : Config}
    {now : Nat} {u : User}
    (h : dbFindByEmail db email = some u) (hl : u.isLocked now = false)
    (ha : u.isActive = true) (hp : u.comparePassword pw = true) :
    login db email pw cfg now =
      (let u1 := if u.loginAttempts > 0 then
           { u with loginAttempts := 0, lockUntil := none }
         else u
       let u2 := { u1 with lastLogin := some now }
       (.success (u2.generateAuthToken cfg now)
         (u2.generateRefreshToken cfg now).1,
        updateUser db (u2.generateRefreshToken cfg now).2)) := by
  simp [login, h, hl, ha, hp]

/-! ### Branch lemma for the refresh handler -/

lemma refresh_success {db : List User} {t : Jwt} {cfg : Config}
    {now : Nat} {p : JwtPayload} {u : User}
    (hver : jwtVerify t cfg.jwtRefreshSecret now = .ok p)
    (hfind : dbFindById db p.id = some u)
    (hact : u.isActive = true)
    (hmem : u.refreshTokens.any (fun r => r.token == t) = true) :
    refresh db (some t) cfg now =
      (.success
        ((u.cleanupRefreshTokens cfg now).generateAuthToken cfg now)
        ((u.cleanupRefreshTokens cfg now).generateRefreshToken cfg now).1,
       updateUser db
         ((u.cleanupRefreshTokens cfg now).generateRefreshToken
           cfg now).2) := by
  simp [refresh, hver, hfind, hact, hmem]

/-! ### Claim C3 -/

/-- C3: with a refresh token presented, `POST /refresh` answers a 401
failure exactly when the token fails verification against the refresh
secret, the owning user no longer exists, the user is deactivated, or the
token is absent from the stored refresh-token list — the condition list
transcribed in `specRefreshRejects`. In particular any token absent from
the stored list (for example after a full logout cleared it) fails. -/
theorem c3_refresh_401_iff (db : List User) (t : Jwt) (cfg : Config)
    (now : Nat) :
    isRefresh401 (refresh db (some t) cfg now).1 =
      specRefreshRejects db t cfg now := by
  unfold refresh specRefreshRejects
  cases hver : jwtVerify t cfg.jwtRefreshSecret now with
  | error e => simp [isRefresh401, hver]
  | ok p =>
    cases hfind : dbFindById db p.id with
    | none => simp [isRefresh401, hver, hfind]
    | some u =>
      by_cases hact : u.isActive = true
      · by_cases hmem :
          (u.refreshTokens.any (fun r => r.token == t)) = true
        · simp [isRefresh401, hver, hfind, hact, hmem]
        · simp [isRefresh401, hver, hfind, hact,
            Bool.eq_false_iff.2 hmem]
      · simp [isRefresh401, hver, hfind, Bool.eq_false_iff.2 hact]

/-! ### Claim C7 -/

/-- C7: a login against an unknown email and a login that fails the
password check produce the identical failure response — HTTP 401 with
message "Invalid email or password" — so a failed login never reveals
which of the two was the problem. -/
theorem c7_uniform_login_failure (db : List User) (email pw : String)
    (cfg : Config) (now : Nat) :
    (dbFindByEmail db email = none →
      (login db email pw cfg now).1 =
        .failure ⟨401, "Invalid email or password"⟩) ∧
    (∀ u : User, dbFindByEmail db email = some u →
      u.isLocked now = false → u.isActive = true →
      u.comparePassword pw = false →
      (login db email pw cfg now).1 =
        .failure ⟨401, "Invalid email or password"⟩) := by
  refine ⟨fun h => ?_, fun u h hl ha hp => ?_⟩
  · rw [login_no_user h]
  · rw [login_wrong_password h hl ha hp]

/-- Witness for C7: both failure shapes, at concrete inputs, produce the
same 401 response. -/
theorem c7_uniform_login_failure_witness :
    (login [alice] "nobody@example.com" "x" exCfg 1000).1 =
      LoginResult.failure ⟨401, "Invalid email or password"⟩ ∧
    (login [alice] "alice@example.com" "wrong" exCfg 1000).1 =
      LoginResult.failure ⟨401, "Invalid email or password"⟩ := by
  constructor
  · exact (c7_uniform_login_failure [alice] "nobody@example.com" "x"
      exCfg 1000).1 (by decide)
  · exact (c7_uniform_login_failure [alice] "alice@example.com" "wrong"
      exCfg 1000).2 alice (by decide) (by decide) (by decide) (by decide)

/-! ### Claim C2 -/

/-- C2: lockout lifecycle. A failed password check on an unlocked active
account routes the user record through `incLoginAttempts`; with no lock
recorded the counter increments and reaching 5 sets `lockUntil` two hours
ahead; while `lockUntil` is in the future every login attempt — whatever
the password — fails with HTTP 423 and an unchanged store, before the
password is evaluated; and the first failed attempt after `lockUntil` has
passed resets the counter to 1 and clears the lock. -/
theorem c2_lockout_lifecycle :
    (∀ (db : List User) (email pw : String) (cfg : Config) (now : Nat)
       (u : User), dbFindByEmail db email = some u →
       u.isLocked now = false → u.isActive = true →
       u.comparePassword pw = false →
       login db email pw cfg now =
         (.failure ⟨401, "Invalid email or password"⟩,
          updateUser db (u.incLoginAttempts now))) ∧
    (∀ (u : User) (now : Nat), u.isLocked now = false →
       (match u.lockUntil with
        | some t => ¬ (t < now)
        | none => True) →
       (u.incLoginAttempts now).loginAttempts = u.loginAttempts + 1 ∧
       (u.incLoginAttempts now).lockUntil =
         (if u.loginAttempts + 1 ≥ maxAttempts then
            some (now + lockTimeMs)
          else u.lockUntil)) ∧
    (∀ (db : List User) (email pw : String) (cfg : Config) (now : Nat)
       (u : User), dbFindByEmail db email = some u →
       u.isLocked now = true →
       login db email pw cfg now =
         (.failure ⟨423,
           "Account temporarily locked due to too many failed login attempts"⟩,
          db)) ∧
    (∀ (u : User) (now t : Nat), u.lockUntil = some t → t < now →
       (u.incLoginAttempts now).loginAttempts = 1 ∧
       (u.incLoginAttempts now).lockUntil = none) := by
  refine ⟨fun db email pw cfg now u h hl ha hp =>
      login_wrong_password h hl ha hp,
    fun u now hLock hPast => ?_,
    fun db email pw cfg now u h hl => login_locked h hl,
    fun u now t hT ht => ?_⟩
  · cases hN : u.lockUntil with
    | none =>
      simp only [User.incLoginAttempts, User.isLocked, hN]
      by_cases h5 : u.loginAttempts + 1 ≥ maxAttempts
      · simp [h5]
      · simp [h5]
    | some t =>
      rw [hN] at hPast
      have hIs : u.isLocked now = false := hLock
      simp only [User.isLocked, hN] at hIs
      have htn : ¬ (t < now) := hPast
      have hnt : ¬ (now < t) := by simpa using hIs
      simp only [User.incLoginAttempts, User.isLocked, hN]
      by_cases h5 : u.loginAttempts + 1 ≥ maxAttempts
      · simp [h5, htn, hnt]
      · simp [h5, htn, hnt]
  · simp only [User.incLoginAttempts, hT]
    simp [ht]

/-- Witness for C2: Dave (4 failed attempts, no lock) gets locked for two
hours by his 5th failure; Frank (locked until 9000) gets a 423 with the
correct password at time 1000; Erin (lock expired at 500) has her counter
reset to 1 and the lock cleared. -/
theorem c2_lockout_lifecycle_witness :
    ((dave.incLoginAttempts 1000).loginAttempts = 5 ∧
     (dave.incLoginAttempts 1000).lockUntil = some (1000 + lockTimeMs)) ∧
    (login [frank] "frank@example.com" "Password6!" exCfg 1000 =
      (.failure ⟨423,
        "Account temporarily locked due to too many failed login attempts"⟩,
       [frank])) ∧
    ((erin.incLoginAttempts 1000).loginAttempts = 1 ∧
     (erin.incLoginAttempts 1000).lockUntil = none) := by
  refine ⟨?_, ?_, ?_⟩
  · have h := c2_lockout_lifecycle.2.1 dave 1000 (by decide) (by trivial)
    exact ⟨by simpa [dave] using h.1,
      by simpa [dave, maxAttempts] using h.2⟩
  · exact c2_lockout_lifecycle.2.2.1 [frank] "frank@example.com"
      "Password6!" exCfg 1000 frank (by decide) (by decide)
  · exact c2_lockout_lifecycle.2.2.2 erin 1000 500 rfl (by decide)

/-! ### Claim C10 -/

/-- C10: the attempt counter is touched only by a login that reaches and
fails the password comparison. A login against an unknown email, a locked
account or a deactivated account answers its failure with the store
untouched; a failed password comparison updates the user exactly through
`incLoginAttempts`; and a successful login leaves the stored counter at
0 rather than incrementing it. -/
theorem c10_login_frame (db : List User) (email pw : String)
    (cfg : Config) (now : Nat) :
    (dbFindByEmail db email = none →
      (login db email pw cfg now).2 = db) ∧
    (∀ u : User, dbFindByEmail db email = some u →
      u.isLocked now = true → (login db email pw cfg now).2 = db) ∧
    (∀ u : User, dbFindByEmail db email = some u →
      u.isLocked now = false → u.isActive = false →
      (login db email pw cfg now).2 = db) ∧
    (∀ u : User, dbFindByEmail db email = some u →
      u.isLocked now = false → u.isActive = true →
      u.comparePassword pw = false →
      (login db email pw cfg now).2 =
        updateUser db (u.incLoginAttempts now)) ∧
    (∀ u : User, dbFindByEmail db email = some u →
      u.isLocked now = false → u.isActive = true →
      u.comparePassword pw = true →
      ∃ v : User, (login db email pw cfg now).2 = updateUser db v ∧
        v.loginAttempts = 0) := by
  refine ⟨fun h => ?_, fun u h hl => ?_, fun u h hl ha => ?_,
    fun u h hl ha hp => ?_, fun u h hl ha hp => ?_⟩
  · rw [login_no_user h]
  · rw [login_locked h hl]
  · rw [login_inactive h hl ha]
  · rw [login_wrong_password h hl ha hp]
  · simp only [login_success h hl ha hp]
    refine ⟨_, rfl, ?_⟩
    simp only [User.generateRefreshToken]
    by_cases hA : u.loginAttempts > 0
    · simp [hA]
    · simp [hA]
      omega

/-- Witness for C10: concrete checks of the frame conditions — a locked
account leaves the store unchanged, and a successful login stores a
counter of 0. -/
theorem c10_login_frame_witness :
    (login [frank] "frank@example.com" "anything" exCfg 1000).2 =
      [frank] ∧
    (login [alice] "zzz@example.com" "x" exCfg 1000).2 = [alice] ∧
    (∃ v : User,
      (login [alice] "alice@example.com" "Password1!" exCfg 1000).2 =
        updateUser [alice] v ∧ v.loginAttempts = 0) := by
  refine ⟨?_, ?_, ?_⟩
  · exact (c10_login_frame [frank] "frank@example.com" "anything"
      exCfg 1000).2.1 frank (by decide) (by decide)
  · exact (c10_login_frame [alice] "zzz@example.com" "x"
      exCfg 1000).1 (by decide)
  · exact (c10_login_frame [alice] "alice@example.com" "Password1!"
      exCfg 1000).2.2.2.2 alice (by decide) (by decide) (by decide)
      (by decide)

/-! ### Claim C1 -/

/-- Counterexample to C1 as stated: the `authenticate` middleware accepts
a purpose token as a bearer access token. A `password_reset` purpose
token for the active user `alice`, unexpired at time 1000, passes the
bearer gate and authenticates as user 1, because `authenticate` verifies
only the signature, expiry and user status and never inspects the `type`
discriminator. -/
theorem c1_counterexample :
    authenticate [alice] (some aliceResetTok) exCfg 1000 =
      .success 1 := by decide

/-- C1 (amended): cross-purpose rejection holds at the two purpose
endpoints. A token whose payload carries `type` `password_reset` is
rejected by `POST /verify-email` with HTTP 400 and no store change, and a
token whose payload carries `type` `email_verification` is rejected by
`POST /reset-password` with HTTP 400 and no store change — whatever the
signature, expiry, store, time and submitted password. The `authenticate`
middleware, by contrast, performs no `type` check. -/
theorem c1_cross_purpose_rejected (db : List User) (p q : JwtPayload)
    (s s2 : String) (e e2 now : Nat) (pw : String) (cfg : Config)
    (hp : p.tokType = some .passwordReset)
    (hq : q.tokType = some .emailVerification) :
    ((verifyEmail db (some (.signed p s e)) cfg now).1.status = 400 ∧
     (verifyEmail db (some (.signed p s e)) cfg now).2 = db) ∧
    ((resetPassword db (.signed q s2 e2) pw cfg now).1.status = 400 ∧
     (resetPassword db (.signed q s2 e2) pw cfg now).2 = db) := by
  constructor
  · unfold verifyEmail jwtVerify
    by_cases hs : s ≠ cfg.jwtSecret
    · simp [hs]
    · by_cases he : e ≤ now
      · simp [hs, he]
      · simp [hs, he, hp]
  · unfold resetPassword jwtVerify
    by_cases hs : s2 ≠ cfg.jwtSecret
    · simp [hs]
    · by_cases he : e2 ≤ now
      · simp [hs, he]
      · simp [hs, he, hq]

/-- Witness for the amended C1: concrete cross-purpose submissions are
rejected with 400 and leave the store unchanged. -/
theorem c1_cross_purpose_rejected_witness :
    ((verifyEmail [alice] (some aliceResetTok) exCfg 1000).1.status = 400 ∧
     (verifyEmail [alice] (some aliceResetTok) exCfg 1000).2 = [alice]) ∧
    ((resetPassword [alice] aliceVerifyTok "NewPass1!" exCfg
        1000).1.status = 400 ∧
     (resetPassword [alice] aliceVerifyTok "NewPass1!" exCfg 1000).2 =
       [alice]) := by
  have h := c1_cross_purpose_rejected [alice]
    { id := 1, tokType := some .passwordReset }
    { id := 1, tokType := some .emailVerification }
    "access-secret" "access-secret" 5000 5000 1000 "NewPass1!" exCfg
    rfl rfl
  exact h

/-! ### Claim C8 -/

/-- C8 evaluated at the failing input: for the existing account
`alice@example.com`, `POST /forgot-password` answers HTTP 500 — not
200 — when the reset email cannot be dispatched, and even on the
successful path its message differs from the unknown-email message, so
the response reveals account existence. This contradicts the route's own
stated intent of not revealing whether the account exists. -/
theorem c8_forgot_password_divergence :
    (forgotPassword [alice] "alice@example.com" false exCfg
      1000).1.status = 500 ∧
    (forgotPassword [alice] "bob@example.com" true exCfg
        1000).1.message ≠
      (forgotPassword [alice] "alice@example.com" true exCfg
        1000).1.message := by
  decide

/-! ### Helper lemmas for registration -/

lemma register_created {db : List User} {name email pw : String}
    {cfg : Config} {now newId : Nat}
    (hdup : dbFindByEmail db email = none) :
    register db name email pw cfg now newId =
      (let u : User := { id := newId, name := name, email := email,
                         password := ⟨cfg.bcryptRounds, pw⟩,
                         lastLogin := some now }
       (.success newId (u.generateAuthToken cfg now)
          (u.generateRefreshToken cfg now).1,
        db ++ [(u.generateRefreshToken cfg now).2])) := by
  simp [register, hdup]

lemma generateRefreshToken_fields (u : User) (cfg : Config) (now : Nat) :
    ((u.generateRefreshToken cfg now).2).email = u.email ∧
    ((u.generateRefreshToken cfg now).2).isActive = u.isActive ∧
    ((u.generateRefreshToken cfg now).2).lockUntil = u.lockUntil ∧
    ((u.generateRefreshToken cfg now).2).password = u.password ∧
    ((u.generateRefreshToken cfg now).2).loginAttempts =
      u.loginAttempts ∧
    ((u.generateRefreshToken cfg now).2).id = u.id := by
  simp [User.generateRefreshToken]

/-! ### Claim C9 -/

/-- C9: when registration succeeds for some name, email and password (the
email was free), logging in immediately afterwards with the same email
and password succeeds at any time, and the access token it returns parses
and verifies against the access secret at its own issue time (it is not
expired at issue). -/
theorem c9_register_then_login (db : List User) (name email pw : String)
    (cfg : Config) (now newId now2 : Nat)
    (hdup : dbFindByEmail db email = none) :
    (∃ uid a r, (register db name email pw cfg now newId).1 =
      .success uid a r) ∧
    (∃ a2 r2 db2,
      login (register db name email pw cfg now newId).2 email pw cfg now2
        = (.success a2 r2, db2) ∧
      jwtOk (jwtVerify a2 cfg.jwtSecret now2) = true) := by
  set u0 : User := { id := newId, name := name, email := email,
                     password := ⟨cfg.bcryptRounds, pw⟩,
                     lastLogin := some now } with hu0def
  set u1 : User := (u0.generateRefreshToken cfg now).2 with hu1def
  have hreg : register db name email pw cfg now newId =
      (.success newId (u0.generateAuthToken cfg now)
        (u0.generateRefreshToken cfg now).1, db ++ [u1]) := by
    rw [register_created hdup]
  have hfind : dbFindByEmail (db ++ [u1]) email = some u1 := by
    unfold dbFindByEmail at hdup ⊢
    rw [List.find?_append, hdup]
    simp [hu1def, hu0def, User.generateRefreshToken]
  have hl : u1.isLocked now2 = false := by
    simp [User.isLocked, hu1def, hu0def, User.generateRefreshToken]
  have ha : u1.isActive = true := by
    simp [hu1def, hu0def, User.generateRefreshToken]
  have hp : u1.comparePassword pw = true := by
    simp [User.comparePassword, bcryptCompare, hu1def, hu0def,
      User.generateRefreshToken]
  have hlog := @login_success (db ++ [u1]) email pw cfg now2 u1
    hfind hl ha hp
  refine ⟨⟨newId, _, _, by rw [hreg]⟩, ?_⟩
  rw [hreg]
  refine ⟨_, _, _, hlog, ?_⟩
  simp [User.generateAuthToken, jwtVerify, jwtOk, jwtExpireMs]

/-- Witness for C9: registering Gina with a free email and logging in
with the same credentials succeeds and yields a verifying access token. -/
theorem c9_register_then_login_witness :
    (∃ uid a r,
      (register [alice] "Gina" "gina@example.com" "Password7!" exCfg 100
        7).1 = .success uid a r) ∧
    (∃ a2 r2 db2,
      login (register [alice] "Gina" "gina@example.com" "Password7!"
          exCfg 100 7).2 "gina@example.com" "Password7!" exCfg 200 =
        (.success a2 r2, db2) ∧
      jwtOk (jwtVerify a2 exCfg.jwtSecret 200) = true) :=
  c9_register_then_login [alice] "Gina" "gina@example.com" "Password7!"
    exCfg 100 7 200 (by decide)

/-! ### Claim C4 -/

/-- Counterexample to C4 as stated: with a full stored list of five live
tokens, presenting the oldest one (`rtok 1`) succeeds, yet after the call
the presented token is no longer in the stored list — the FIFO cap of 5,
not only the expiry prune, removes entries, and it removed a token that
still verifies. -/
theorem c4_counterexample :
    RefreshResult.isSuccess
      (refresh [bob] (some (rtok 1)) exCfg 1000).1 = true ∧
    ((refresh [bob] (some (rtok 1)) exCfg 1000).2.all
      (fun u => !(u.refreshTokens.any (fun r => r.token == rtok 1)))) =
      true := by decide

/-- C4 (amended): on every successful RefreshToken call the presented
token survives the expiry prune — the prune pass removes only records
that no longer verify against the refresh secret — and the post-call
store holds the pruned list plus the newly issued token, capped at 5;
whenever the pruned list has at most 4 entries the presented token
remains stored after the call (with 5 surviving entries the FIFO cap can
evict it, as the counterexample shows). -/
theorem c4_refresh_prune_and_cap (db : List User) (t : Jwt)
    (p : JwtPayload) (cfg : Config) (now : Nat) (u : User)
    (hver : jwtVerify t cfg.jwtRefreshSecret now = .ok p)
    (hfind : dbFindById db p.id = some u)
    (hact : u.isActive = true)
    (hmem : u.refreshTokens.any (fun r => r.token == t) = true) :
    RefreshResult.isSuccess (refresh db (some t) cfg now).1 = true ∧
    (refresh db (some t) cfg now).2 =
      updateUser db
        ((u.cleanupRefreshTokens cfg now).generateRefreshToken cfg
          now).2 ∧
    ((u.cleanupRefreshTokens cfg now).refreshTokens.any
      (fun r => r.token == t) = true) ∧
    (∀ r ∈ u.refreshTokens,
      r ∉ (u.cleanupRefreshTokens cfg now).refreshTokens →
      jwtOk (jwtVerify r.token cfg.jwtRefreshSecret now) = false) ∧
    ((u.cleanupRefreshTokens cfg now).refreshTokens.length ≤ 4 →
      (((u.cleanupRefreshTokens cfg now).generateRefreshToken cfg
        now).2).refreshTokens.any (fun r => r.token == t) = true) := by
  have hrw := refresh_success hver hfind hact hmem
  have hsurv : (u.cleanupRefreshTokens cfg now).refreshTokens.any
      (fun r => r.token == t) = true := by
    rcases List.any_eq_true.1 hmem with ⟨r, hrmem, hrt⟩
    have hrtEq : r.token = t := by simpa using hrt
    refine List.any_eq_true.2 ⟨r, ?_, hrt⟩
    simp only [User.cleanupRefreshTokens]
    refine List.mem_filter.2 ⟨hrmem, ?_⟩
    simp [hrtEq, hver, jwtOk]
  refine ⟨by rw [hrw]; rfl, by rw [hrw], hsurv, ?_, ?_⟩
  · intro r hrmem hnot
    by_contra hok
    apply hnot
    simp only [User.cleanupRefreshTokens]
    refine List.mem_filter.2 ⟨hrmem, ?_⟩
    simpa using hok
  · intro hlen
    simp only [User.generateRefreshToken]
    split
    · exfalso
      next hgt =>
        simp only [List.length_append, List.length_singleton] at hgt
        omega
    · simp [List.any_append, hsurv]

/-- Witness for the amended C4: Carol holds a single live session; a
refresh with it succeeds and the presented token remains stored. -/
theorem c4_refresh_prune_and_cap_witness :
    RefreshResult.isSuccess
      (refresh [carol] (some carolRefreshTok) exCfg 1000).1 = true ∧
    (((carol.cleanupRefreshTokens exCfg 1000).generateRefreshToken exCfg
      1000).2).refreshTokens.any
        (fun r => r.token == carolRefreshTok) = true := by
  have h := c4_refresh_prune_and_cap [carol] carolRefreshTok { id := 3 }
    exCfg 1000 carol (by rfl) (by rfl) (by rfl) (by rfl)
  exact ⟨h.1, h.2.2.2.2 (by decide)⟩

/-! ### Claim C5 -/

/-- C5 evaluated against the code: `POST /reset-password` never succeeds.
The route loads the user with a plain `findById` while the schema marks
`passwordResetToken` and `passwordResetExpires` as `select: false`, so
the stored-token comparison always sees an absent field and answers 400
with the store unchanged, for every store, token, password, secret pair
and time. In particular Carol, whose persisted record holds a live reset
token matching the submitted one, is refused; and even the token just
issued to Alice by a successful forgot-password call — stored on her
persisted record — is refused when presented immediately. The success
effects the claim describes (re-hash, cleared reset fields, emptied
refresh-token list, revoked sessions) are unreachable. -/
theorem c5_reset_password_never_succeeds :
    (∀ (db : List User) (tok : Jwt) (newPw : String) (cfg : Config)
       (now : Nat),
      (resetPassword db tok newPw cfg now).1.status ≠ 200 ∧
      (resetPassword db tok newPw cfg now).2 = db) ∧
    (carol.passwordResetToken = some carolResetTok ∧
     resetPassword [carol] carolResetTok "NewPass3!" exCfg 1000 =
       (⟨400, "Invalid or expired reset token"⟩, [carol])) ∧
    ((dbFindById (forgotPassword [alice] "alice@example.com" true exCfg
        1000).2 1).map (fun u => u.passwordResetToken) =
      some (some (Jwt.signed
        { id := 1, tokType := some .passwordReset } "access-secret"
        (1000 + resetTtlMs))) ∧
     resetPassword
       (forgotPassword [alice] "alice@example.com" true exCfg 1000).2
       (Jwt.signed { id := 1, tokType := some .passwordReset }
         "access-secret" (1000 + resetTtlMs)) "NewPass1!" exCfg 2000 =
       (⟨400, "Invalid or expired reset token"⟩,
        (forgotPassword [alice] "alice@example.com" true exCfg
          1000).2)) := by
  refine ⟨?_, ⟨by decide, by decide⟩, ⟨by decide, by decide⟩⟩
  intro db tok newPw cfg now
  unfold resetPassword
  cases hv : jwtVerify tok cfg.jwtSecret now with
  | error e => simp
  | ok p =>
    by_cases hty : p.tokType = some TokenType.passwordReset
    · cases hf : dbFindById db p.id with
      | none => simp [hty, hf]
      | some udoc => simp [hty, hf, User.defaultSelect]
    · simp [hty]

/-! ### Claim C6 -/

lemma cap5_length {α : Type} (l : List α) :
    (if l.length > 5 then l.drop (l.length - 5) else l).length ≤ 5 := by
  split
  · rw [List.length_drop]
    omega
  · omega

lemma generate_cap (u : User) (cfg : Config) (now : Nat) :
    ((u.generateRefreshToken cfg now).2).refreshTokens.length ≤ 5 := by
  simp only [User.generateRefreshToken]
  exact cap5_length _

lemma generate_fifo (u : User) (cfg : Config) (now : Nat) :
    ((u.generateRefreshToken cfg now).2).refreshTokens =
      ((u.refreshTokens ++
          [(⟨(u.generateRefreshToken cfg now).1, now⟩ :
            RefreshTokenRecord)]).drop
        ((u.refreshTokens ++
          [(⟨(u.generateRefreshToken cfg now).1, now⟩ :
            RefreshTokenRecord)]).length - 5)) := by
  simp only [User.generateRefreshToken]
  split
  · rfl
  · next h =>
    have h0 : (u.refreshTokens ++
        [(⟨Jwt.signed { id := u.id } cfg.jwtRefreshSecret
          (now + refreshExpireMs), now⟩ : RefreshTokenRecord)]).length -
        5 = 0 := by
      simp only [List.length_append, List.length_singleton]
      simp only [Nat.not_lt] at h
      simp only [List.length_append, List.length_singleton] at h
      omega
    rw [h0, List.drop_zero]

lemma incLoginAttempts_refreshTokens (u : User) (now : Nat) :
    (u.incLoginAttempts now).refreshTokens = u.refreshTokens := by
  unfold User.incLoginAttempts
  split
  · rfl
  · split <;> rfl

lemma dbCapB_mem {db : List User} {u : User} (h : dbCapB db = true)
    (hm : u ∈ db) : u.refreshTokens.length ≤ 5 := by
  simp only [dbCapB, List.all_eq_true, decide_eq_true_eq] at h
  exact h u hm

lemma register_cap {db : List User} {name email pw : String}
    {cfg : Config} {now newId : Nat} (h : dbCapB db = true) :
    dbCapB (register db name email pw cfg now newId).2 = true := by
  unfold register
  cases hf : dbFindByEmail db email with
  | some u => simpa using h
  | none =>
    simp only [dbCapB, List.all_append] at h ⊢
    rw [h]
    simpa using generate_cap _ cfg now

lemma login_cap {db : List User} {email pw : String} {cfg : Config}
    {now : Nat} (h : dbCapB db = true) :
    dbCapB (login db email pw cfg now).2 = true := by
  cases hf : dbFindByEmail db email with
  | none => rw [login_no_user hf]; exact h
  | some u =>
    have hu5 : u.refreshTokens.length ≤ 5 :=
      dbCapB_mem h (mem_of_dbFindByEmail hf)
    by_cases hl : u.isLocked now = true
    · rw [login_locked hf hl]; exact h
    · have hl' : u.isLocked now = false := Bool.eq_false_iff.2 hl
      by_cases ha : u.isActive = true
      · by_cases hp : u.comparePassword pw = true
        · rw [login_success hf hl' ha hp]
          refine dbCapB_updateUser h ?_
          exact generate_cap _ cfg now
        · rw [login_wrong_password hf hl' ha (Bool.eq_false_iff.2 hp)]
          refine dbCapB_updateUser h ?_
          rw [incLoginAttempts_refreshTokens]
          exact hu5
      · rw [login_inactive hf hl' (Bool.eq_false_iff.2 ha)]; exact h

lemma refresh_cap {db : List User} {tok : Option Jwt} {cfg : Config}
    {now : Nat} (h : dbCapB db = true) :
    dbCapB (refresh db tok cfg now).2 = true := by
  cases tok with
  | none => simpa [refresh] using h
  | some t =>
    cases hver : jwtVerify t cfg.jwtRefreshSecret now with
    | error e => simpa [refresh, hver] using h
    | ok p =>
      cases hfind : dbFindById db p.id with
      | none => simpa [refresh, hver, hfind] using h
      | some u =>
        by_cases hact : u.isActive = true
        · by_cases hmem :
            (u.refreshTokens.any (fun r => r.token == t)) = true
          · rw [refresh_success hver hfind hact hmem]
            exact dbCapB_updateUser h (generate_cap _ cfg now)
          · simpa [refresh, hver, hfind, hact,
              Bool.eq_false_iff.2 hmem] using h
        · simpa [refresh, hver, hfind, Bool.eq_false_iff.2 hact] using h

/-- C6: the refresh-token list stays capped at 5. `generateRefreshToken`
always leaves at most 5 stored records and its result is exactly the 5
most recent entries of the appended list (oldest dropped first), and each
of the three appending operations — register, login, refresh — preserves
the store-wide invariant that every user holds at most 5 refresh
tokens. -/
theorem c6_session_cap :
    (∀ (u : User) (cfg : Config) (now : Nat),
      ((u.generateRefreshToken cfg now).2).refreshTokens.length ≤ 5 ∧
      ((u.generateRefreshToken cfg now).2).refreshTokens =
        ((u.refreshTokens ++
            [(⟨(u.generateRefreshToken cfg now).1, now⟩ :
              RefreshTokenRecord)]).drop
          ((u.refreshTokens ++
            [(⟨(u.generateRefreshToken cfg now).1, now⟩ :
              RefreshTokenRecord)]).length - 5))) ∧
    (∀ (db : List User) (name email pw : String) (cfg : Config)
       (now newId : Nat), dbCapB db = true →
      dbCapB (register db name email pw cfg now newId).2 = true) ∧
    (∀ (db : List User) (email pw : String) (cfg : Config) (now : Nat),
      dbCapB db = true →
      dbCapB (login db email pw cfg now).2 = true) ∧
    (∀ (db : List User) (tok : Option Jwt) (cfg : Config) (now : Nat),
      dbCapB db = true →
      dbCapB (refresh db tok cfg now).2 = true) :=
  ⟨fun u cfg now => ⟨generate_cap u cfg now, generate_fifo u cfg now⟩,
   fun _ _ _ _ _ _ _ h => register_cap h,
   fun _ _ _ _ _ h => login_cap h,
   fun _ _ _ _ h => refresh_cap h⟩

/-- Witness for C6: a store holding Bob with a full 5-token list still
satisfies the cap after a refresh that appends a sixth token. -/
theorem c6_session_cap_witness :
    dbCapB [bob] = true ∧
    dbCapB (refresh [bob] (some (rtok 3)) exCfg 1000).2 = true := by
  refine ⟨by decide, ?_⟩
  exact c6_session_cap.2.2.2 [bob] (some (rtok 3)) exCfg 1000 (by decide)

end OceanAuth
